import Mathlib

/-!
Verification development for the LibrePitch audio-effects and export engine.

The definitions below are a shallow embedding of the TypeScript source:

* the live signal chain and its parameter setters (`createAudioGraph`),
* the per-chunk offline renderer (`renderOffline`, `concatenateAudioBuffers`),
* the WAV/MP3 16-bit sample conversion (`encodeWAV`, `floatToInt16`),
* the ID3v1 byte-length truncation (`truncateForId3v1`),
* the BPM estimator (`detectBPM`).

JavaScript numbers are modelled as exact rationals (`ℚ`), except where the
source computes `Math.sqrt`, which is modelled by `Real.sqrt` over `ℝ`.
JS strings are modelled as lists of UTF-16 code units (`List ℕ`), and
`TextEncoder` as the WHATWG UTF-8 encoder that replaces unpaired surrogates
by U+FFFD (3 bytes).
-/

namespace LibrePitch

/-! ## Live signal chain state and setters (src/unnamed/part_002, `createAudioGraph`) -/

/-- `ReverbType` from graph source: `'delay' | 'original'`. -/
inductive ReverbType where
  | delay
  | original
deriving DecidableEq, Repr

/-- `AudioGraphState` record from the graph source. -/
structure AudioGraphState where
  speed : ℚ
  detune : ℚ
  bass : ℚ
  treble : ℚ
  lowpass : ℚ
  highpass : ℚ
  reverb : ℚ
  reverbType : ReverbType
  volume : ℚ
deriving DecidableEq, Repr

/-- Initial state from `createAudioGraph` (speed 1.0, everything else flat). -/
def initialState : AudioGraphState :=
  { speed := 1, detune := 0, bass := 0, treble := 0, lowpass := 0,
    highpass := 0, reverb := 0, reverbType := .delay, volume := 1 }

/-- `setSpeed(value)`: stores `state.speed = value` (no clamping in source). -/
def setSpeed (st : AudioGraphState) (value : ℚ) : AudioGraphState :=
  { st with speed := value }

/-- `setDetune(cents)`: stores `state.detune = cents`. -/
def setDetune (st : AudioGraphState) (cents : ℚ) : AudioGraphState :=
  { st with detune := cents }

/-- `setBass(db)`: stores `state.bass = db`. -/
def setBass (st : AudioGraphState) (db : ℚ) : AudioGraphState :=
  { st with bass := db }

/-- `setTreble(db)`: stores `state.treble = db`. -/
def setTreble (st : AudioGraphState) (db : ℚ) : AudioGraphState :=
  { st with treble := db }

/-- `setLowpass(amount)`: stores `Math.max(0, Math.min(100, amount))`. -/
def setLowpass (st : AudioGraphState) (amount : ℚ) : AudioGraphState :=
  { st with lowpass := max 0 (min 100 amount) }

/-- `setHighpass(amount)`: stores `Math.max(0, Math.min(100, amount))`. -/
def setHighpass (st : AudioGraphState) (amount : ℚ) : AudioGraphState :=
  { st with highpass := max 0 (min 100 amount) }

/-- `setReverb(amount)`: stores `Math.max(0, Math.min(100, amount))`. -/
def setReverb (st : AudioGraphState) (amount : ℚ) : AudioGraphState :=
  { st with reverb := max 0 (min 100 amount) }

/-- `setReverbType(type)`: stores the type. -/
def setReverbType (st : AudioGraphState) (t : ReverbType) : AudioGraphState :=
  { st with reverbType := t }

/-- `setVolume(value)`: stores `state.volume = value` (no clamping in source). -/
def setVolume (st : AudioGraphState) (value : ℚ) : AudioGraphState :=
  { st with volume := value }

/-- One parameter-setter call on the live chain, with its numeric argument. -/
inductive SetterCall where
  | speed (v : ℚ)
  | detune (c : ℚ)
  | bass (db : ℚ)
  | treble (db : ℚ)
  | lowpass (a : ℚ)
  | highpass (a : ℚ)
  | reverb (a : ℚ)
  | reverbType (t : ReverbType)
  | volume (v : ℚ)

/-- Dispatch one setter call to the corresponding state update. -/
def applyCall (st : AudioGraphState) : SetterCall → AudioGraphState
  | .speed v => setSpeed st v
  | .detune c => setDetune st c
  | .bass db => setBass st db
  | .treble db => setTreble st db
  | .lowpass a => setLowpass st a
  | .highpass a => setHighpass st a
  | .reverb a => setReverb st a
  | .reverbType t => setReverbType st t
  | .volume v => setVolume st v

/-- A sequence of setter calls applied in order, starting from a given state. -/
def applyCalls (st : AudioGraphState) (calls : List SetterCall) : AudioGraphState :=
  calls.foldl applyCall st

/-! ## Dry/wet reverb gains (live `setReverbGains` and offline `buildEffectGraph`) -/

/-- Live chain `setReverbGains(amount)` (graph source lines 244-253),
returned as the `(dryGain, wetGain)` pair it assigns. -/
def setReverbGains (rt : ReverbType) (amount : ℚ) : ℚ × ℚ :=
  match rt with
  | .delay => (1, amount / 100 * 0.45)
  | .original =>
    let w := amount / 100 * 0.5
    (1 - w, w)

/-- Offline per-chunk graph dry/wet gains from `buildEffectGraph`
(render source lines 90-98), as the `(dryGain, wetGain)` pair. -/
def offlineReverbGains (rt : ReverbType) (reverb : ℚ) : ℚ × ℚ :=
  if rt = ReverbType.delay then
    (1, reverb / 100 * 0.45)
  else
    let w := reverb / 100 * 0.5
    (1 - w, w)

/-! ## 16-bit sample conversion (`encodeWAV` inner loop and `floatToInt16`) -/

/-- The per-sample conversion inside `encodeWAV` (render source lines 237-243):
clamp to [-1,1], then scale negative by 32768 and non-negative by 32767. -/
def encodeWavSample (x : ℚ) : ℤ :=
  let sample := max (-1) (min 1 x)
  if sample < 0 then max (-32768) ⌊sample * 32768⌋ else min 32767 ⌊sample * 32767⌋

/-- `floatToInt16` (render source lines 266-273), used for MP3 pre-conversion. -/
def floatToInt16 (x : ℚ) : ℤ :=
  let s := max (-1) (min 1 x)
  if s < 0 then max (-32768) ⌊s * 32768⌋ else min 32767 ⌊s * 32767⌋

/-! ## Offline renderer chunking (src/unnamed/part_003, `renderOffline`)

`renderOffline` computes `duration`, collects `chunkStarts` with the loop
`for (let t = 0; t < duration; t += RENDER_CHUNK_SECONDS)`, pushes `0` if the
list came out empty, and sizes each chunk context as
`Math.ceil(chunkDuration * sampleRate)` frames. The defs are generic over a
linear ordered field so they cover both exact reals (for irrational effective
rates coming from `2^(detune/1200)`) and rationals (for evaluation). -/

/-- `RENDER_CHUNK_SECONDS` from the render source. -/
def RENDER_CHUNK_SECONDS : ℕ := 60

/-- The `for (let t = 0; t < duration; t += 60)` loop body collecting chunk
start times; `fuel` bounds the iteration count (chosen large enough below). -/
def chunkStartsAux {α : Type} [LinearOrderedField α] (duration : α) :
    ℕ → α → List α
  | 0, _ => []
  | fuel + 1, t => if t < duration then t :: chunkStartsAux duration fuel (t + 60) else []

/-- `chunkStarts` from `renderOffline`: loop starts at `t = 0`, and a lone `0`
is pushed when the loop produced nothing (`if (chunkStarts.length === 0)`). -/
def chunkStarts {α : Type} [LinearOrderedField α] [FloorRing α] (duration : α) : List α :=
  let l := chunkStartsAux duration (⌈duration / 60⌉.toNat + 1) 0
  if l.isEmpty then [0] else l

/-- Frame count of one chunk: `outputEnd = Math.min(outputStart + 60, duration)`,
`chunkFrames = Math.ceil(chunkDuration * sampleRate)`. -/
def chunkFrames {α : Type} [LinearOrderedField α] [FloorRing α]
    (duration sampleRate : α) (outputStart : α) : ℤ :=
  ⌈(min (outputStart + 60) duration - outputStart) * sampleRate⌉

/-- Total frames produced by the chunked offline render: the sum of the
per-chunk context lengths over all chunk starts. -/
def totalRenderedFrames {α : Type} [LinearOrderedField α] [FloorRing α]
    (duration sampleRate : α) : ℤ :=
  ((chunkStarts duration).map (chunkFrames duration sampleRate)).sum

/-- `concatenateAudioBuffers(buffers, channels, sampleRate)`: per channel,
copy every chunk's channel data one after the other (`out.set(..., offset)`).
A buffer is modelled as its list of per-channel sample lists. -/
def concatenateAudioBuffers (buffers : List (List (List ℚ))) (channels : ℕ) :
    List (List ℚ) :=
  (List.range channels).map (fun ch => (buffers.map (fun b => b.getD ch [])).flatten)

/-! ## Offline renderer failure path (`renderOffline` catch handler) -/

/-- Does the character list start with the given pattern? -/
def listStartsWith : List Char → List Char → Bool
  | [], _ => true
  | _ :: _, [] => false
  | p :: ps, c :: cs => p == c && listStartsWith ps cs

/-- Does the character list contain the pattern as a contiguous run?
(JS `String.prototype.includes`.) -/
def listHasSub (pattern : List Char) : List Char → Bool
  | [] => pattern.isEmpty
  | c :: cs => listStartsWith pattern (c :: cs) || listHasSub pattern cs

/-- JS `s.includes(pattern)` on strings. -/
def strIncludes (s pattern : String) : Bool := listHasSub pattern.toList s.toList

/-- The catch handler's test (render source line 165): the error message is
treated as an allocation/out-of-memory failure when it contains
`'RangeError'`, `'memory'`, or `'allocate'`. -/
def isAllocationFailureMsg (msg : String) : Bool :=
  strIncludes msg "RangeError" || strIncludes msg "memory" || strIncludes msg "allocate"

/-- The distinguished out-of-memory error message thrown by `renderOffline`
(render source line 166). -/
def oomMessage : String :=
  "Render failed: file may be too long or system ran out of memory. Try a shorter clip or fewer effects."

/-- The chunk loop: each chunk render either yields a chunk or throws with a
message; the first throw aborts the loop and every already-rendered chunk is
discarded with it. -/
def collectChunks {Chunk : Type} : List (Except String Chunk) → Except String (List Chunk)
  | [] => .ok []
  | .ok c :: rest => (collectChunks rest).map (fun l => c :: l)
  | .error e :: _ => .error e

/-- `renderOffline`'s try/catch around the whole chunk loop: a caught error
whose message matches the allocation-failure test is replaced by the
distinguished out-of-memory error; any other error is rethrown unchanged. -/
def renderOfflineResult {Chunk : Type} (chunkResults : List (Except String Chunk)) :
    Except String (List Chunk) :=
  match collectChunks chunkResults with
  | .ok chunks => .ok chunks
  | .error msg => .error (if isAllocationFailureMsg msg then oomMessage else msg)

/-! ## ID3v1 truncation (`truncateForId3v1`)

A JS string is a list of UTF-16 code units; `s.slice(0, -1)` drops the last
code unit; `new TextEncoder().encode(s).length` is the UTF-8 byte length
where an unpaired surrogate encodes as U+FFFD (3 bytes, per WHATWG). -/

/-- Is the code unit a high (leading) surrogate? -/
def isHighSurrogate (u : ℕ) : Prop := 0xD800 ≤ u ∧ u < 0xDC00

/-- Is the code unit a low (trailing) surrogate? -/
def isLowSurrogate (u : ℕ) : Prop := 0xDC00 ≤ u ∧ u < 0xE000

instance (u : ℕ) : Decidable (isHighSurrogate u) := by unfold isHighSurrogate; infer_instance

instance (u : ℕ) : Decidable (isLowSurrogate u) := by unfold isLowSurrogate; infer_instance

/-- UTF-8 byte length of one BMP scalar value. -/
def scalarUtf8Len (u : ℕ) : ℕ :=
  if u < 0x80 then 1 else if u < 0x800 then 2 else 3

/-- UTF-8 byte length of a UTF-16 code-unit sequence as produced by
`TextEncoder`: a surrogate pair encodes in 4 bytes, an unpaired surrogate as
the 3-byte replacement character, and BMP scalars in 1, 2 or 3 bytes. -/
def utf16Utf8Len : List ℕ → ℕ
  | [] => 0
  | [u] => if isHighSurrogate u ∨ isLowSurrogate u then 3 else scalarUtf8Len u
  | u :: v :: rest =>
    if isHighSurrogate u then
      if isLowSurrogate v then 4 + utf16Utf8Len rest
      else 3 + utf16Utf8Len (v :: rest)
    else
      (if isLowSurrogate u then 3 else scalarUtf8Len u) + utf16Utf8Len (v :: rest)

/-- The `while (s.length > 0 && enc.encode(s).length > maxBytes)` loop of
`truncateForId3v1`, with an explicit iteration bound (each pass drops one
code unit, so `s.length` passes always suffice). -/
def truncateLoop (maxBytes : ℕ) : ℕ → List ℕ → List ℕ
  | 0, s => s
  | fuel + 1, s =>
    if 0 < s.length ∧ maxBytes < utf16Utf8Len s then truncateLoop maxBytes fuel s.dropLast
    else s

/-- `truncateForId3v1(s, maxBytes)` (render source lines 333-337): while the
string is nonempty and its encoded byte length exceeds `maxBytes`, drop the
last UTF-16 code unit. -/
def truncateForId3v1 (s : List ℕ) (maxBytes : ℕ := 30) : List ℕ :=
  truncateLoop maxBytes s.length s

/-- A code-unit sequence with no surrogates at all (all characters BMP,
one code unit per character). -/
def noSurrogates (s : List ℕ) : Bool :=
  s.all (fun u => decide (¬ isHighSurrogate u ∧ ¬ isLowSurrogate u))

/-- Well-formed UTF-16: every high surrogate is immediately followed by a low
surrogate and no low surrogate appears on its own. -/
def wellFormedUtf16 : List ℕ → Bool
  | [] => true
  | u :: rest =>
    if isHighSurrogate u then
      match rest with
      | [] => false
      | v :: rest2 => decide (isLowSurrogate v) && wellFormedUtf16 rest2
    else if isLowSurrogate u then false
    else wellFormedUtf16 rest

/-! ## BPM estimator (src/src/audio/bpm.ts)

`detectBPM` wraps `detectBPMInner` in a try/catch; the model is total, so the
catch is the identity and "never throws" holds by construction. The per-frame
RMS energy uses `Math.sqrt`, modelled by `Real.sqrt`; every other stage is
defined generically over a linear ordered field so that it can be evaluated
exactly at `ℚ` and instantiated at `ℝ` in `detectBPMInner`. -/

/-- A decoded sample buffer: per-channel sample lists plus a sample rate. -/
structure ModelBuffer where
  channels : List (List ℚ)
  sampleRate : ℚ

/-- `buffer.length` (frame count; channels all share it in Web Audio). -/
def ModelBuffer.length (buf : ModelBuffer) : ℕ := (buf.channels.headD []).length

/-- `MAX_SAMPLES = Math.floor(60 * 44.1 * 1000)`. -/
def MAX_SAMPLES : ℕ := (⌊(60 * 44.1 * 1000 : ℚ)⌋).toNat

/-- `getMonoSamples(buffer, maxSamples)`: cap the window, return the single
channel directly (truncated) or the per-sample average across channels. -/
def getMonoSamples (buf : ModelBuffer) (maxSamples : ℕ) : List ℚ :=
  let numCh := buf.channels.length
  let len := min buf.length maxSamples
  if len = 0 then []
  else if numCh = 1 then (buf.channels.getD 0 []).take len
  else (List.range len).map (fun i => ((buf.channels.map (fun ch => ch.getD i 0)).sum) / numCh)

/-- `numFrames = Math.floor((mono.length - FRAME_LEN) / HOP_LEN) + 1`
(only reached when `mono.length ≥ 2 * FRAME_LEN`). -/
def numFramesOf (len : ℕ) : ℕ := (len - 2048) / 1024 + 1

/-- Mean square of analysis frame `f`: `sum of s*s over FRAME_LEN samples
starting at f * HOP_LEN, divided by FRAME_LEN`. -/
def frameMeanSq (mono : List ℚ) (f : ℕ) : ℚ :=
  ((List.range 2048).map (fun i => mono.getD (f * 1024 + i) 0 * mono.getD (f * 1024 + i) 0)).sum
    / 2048

/-- `energy[f] = Math.sqrt(sum / FRAME_LEN)` for each analysis frame. -/
noncomputable def frameEnergies (mono : List ℚ) : List ℝ :=
  (List.range (numFramesOf mono.length)).map (fun f => Real.sqrt ((frameMeanSq mono f : ℚ) : ℝ))

/-- Onset strengths after the first frame: `max(0, energy[f] - energy[f-1])`. -/
def onsetsAux {α : Type} [LinearOrderedField α] (prev : α) : List α → List α
  | [] => []
  | c :: rest => max 0 (c - prev) :: onsetsAux c rest

/-- Onset strength list: `onset[0] = 0`, then positive energy flux. -/
def onsets {α : Type} [LinearOrderedField α] : List α → List α
  | [] => []
  | e :: rest => 0 :: onsetsAux e rest

/-- Insert into an ascending-sorted list (used to model the numeric
ascending `sort()` of the onset array). -/
def insertAsc {α : Type} [LinearOrderedField α] (x : α) : List α → List α
  | [] => [x]
  | y :: ys => if x ≤ y then x :: y :: ys else y :: insertAsc x ys

/-- Ascending numeric sort, as `Float32Array.from(onset).sort()`. -/
def sortAsc {α : Type} [LinearOrderedField α] : List α → List α
  | [] => []
  | x :: xs => insertAsc x (sortAsc xs)

/-- `threshIdx = Math.floor((numFrames - 1) * PEAK_THRESHOLD_PERCENTILE)`. -/
def threshIdx (numFrames : ℕ) : ℕ := (⌊((numFrames : ℚ) - 1) * 0.85⌋).toNat

/-- Peak picking: frames `2 ≤ f < numFrames - 2` whose onset is not below the
threshold and is a local maximum over the ±2-frame window. -/
def peakList {α : Type} [LinearOrderedField α] (onset : List α) (threshold : α) : List ℕ :=
  (List.range onset.length).filter (fun f =>
    decide (2 ≤ f) && decide (f + 2 < onset.length) &&
    !(decide (onset.getD f 0 < threshold)) &&
    decide (onset.getD (f - 1) 0 ≤ onset.getD f 0) &&
    decide (onset.getD (f - 2) 0 ≤ onset.getD f 0) &&
    decide (onset.getD (f + 1) 0 ≤ onset.getD f 0) &&
    decide (onset.getD (f + 2) 0 ≤ onset.getD f 0))

/-- Differences of consecutive elements (`dt = peakTimes[i] - peakTimes[i-1]`). -/
def consecDeltas {α : Type} [LinearOrderedField α] : List α → List α
  | a :: b :: rest => (b - a) :: consecDeltas (b :: rest)
  | _ => []

/-- Inter-peak intervals in seconds, keeping `0.2 ≤ dt ≤ 2`
(`frameToTime = HOP_LEN / sampleRate`; `0.2 = 1/5`). -/
def keptIntervals {α : Type} [LinearOrderedField α] (peaks : List ℕ) (frameToTime : α) :
    List α :=
  (consecDeltas (peaks.map (fun f => (f : α) * frameToTime))).filter
    (fun dt => decide ((1 / 5 : α) ≤ dt) && decide (dt ≤ 2))

/-- Interval histogram: 20 ms bins covering 300-1000 ms (`numBins = 35`);
`ms` outside the range is skipped, otherwise `bin = Math.floor((ms-300)/20)`
is counted when in range. -/
def histBins {α : Type} [LinearOrderedField α] [FloorRing α] (intervals : List α) : List ℕ :=
  intervals.foldl (fun h dt =>
    let ms := dt * 1000
    if ms < 300 ∨ 1000 < ms then h
    else
      let bin := ⌊(ms - 300) / 20⌋
      if 0 ≤ bin ∧ bin < 35 then h.set bin.toNat (h.getD bin.toNat 0 + 1) else h)
    (List.replicate 35 0)

/-- Modal bin scan: first bin whose count strictly exceeds the best so far,
starting from `bestBin = 0`, `bestCount = 0`. -/
def bestBin (hist : List ℕ) : ℕ :=
  ((List.range hist.length).foldl
    (fun p b => if hist.getD b 0 > p.2 then (b, hist.getD b 0) else p) ((0 : ℕ), (0 : ℕ))).1

/-- `Math.round` for the (nonnegative) values the estimator rounds. -/
def jsRound (q : ℚ) : ℤ := ⌊q + 1 / 2⌋

/-- `periodMs = 300 + (bestBin + 0.5) * 20; bpm = Math.round(60000 / periodMs)`. -/
def bpmFromBin (bin : ℕ) : ℤ := jsRound (60000 / (300 + ((bin : ℚ) + 0.5) * 20))

/-- Octave correction: keep `[80,200]`, double `[40,80)`, halve `(200,400]`
(rounding), otherwise leave unchanged. -/
def octaveCorrect (bpm : ℤ) : ℤ :=
  if 80 ≤ bpm ∧ bpm ≤ 200 then bpm
  else if 40 ≤ bpm ∧ bpm < 80 then bpm * 2
  else if 200 < bpm ∧ bpm ≤ 400 then jsRound ((bpm : ℚ) / 2)
  else bpm

/-- Final clamp `bpm = Math.max(60, Math.min(200, bpm))`. -/
def clampBpm (bpm : ℤ) : ℤ := max 60 (min 200 bpm)

/-- The octave correction in the order the claim phrases it (double `[40,80)`,
halve `(200,400]`, otherwise keep); proved equal to `octaveCorrect` below. -/
def specOctaveCorrect (bpm : ℤ) : ℤ :=
  if 40 ≤ bpm ∧ bpm < 80 then bpm * 2
  else if 200 < bpm ∧ bpm ≤ 400 then jsRound ((bpm : ℚ) / 2)
  else bpm

/-- The estimator pipeline after the frame energies have been computed
(lines 56-136 of the source, with `energy` as the explicit intermediate). -/
def detectBPMCore {α : Type} [LinearOrderedField α] [FloorRing α]
    (energy : List α) (sampleRate : α) : Option ℤ :=
  let onset := onsets energy
  let threshold := (sortAsc onset).getD (threshIdx energy.length) 0
  let peaks := peakList onset threshold
  if peaks.length < 4 then none
  else
    let intervals := keptIntervals peaks ((1024 : α) / sampleRate)
    if intervals.length < 2 then none
    else some (clampBpm (octaveCorrect (bpmFromBin (bestBin (histBins intervals)))))

/-- `detectBPMInner`: short-window guard, then the pipeline over the
`Real.sqrt` frame energies. -/
noncomputable def detectBPMInner (buf : ModelBuffer) : Option ℤ :=
  let mono := getMonoSamples buf MAX_SAMPLES
  if mono.length < 2 * 2048 then none
  else detectBPMCore (frameEnergies mono) ((buf.sampleRate : ℚ) : ℝ)

/-- `detectBPM`: the try/catch wrapper; the model is total so it is the
identity on `detectBPMInner` and can never throw. -/
noncomputable def detectBPM (buf : ModelBuffer) : Option ℤ := detectBPMInner buf

/-- The capped mono analysis window of a buffer. -/
def bpmMono (buf : ModelBuffer) : List ℚ := getMonoSamples buf MAX_SAMPLES

/-- The frame energies the estimator computes for a buffer. -/
noncomputable def bpmEnergies (buf : ModelBuffer) : List ℝ := frameEnergies (bpmMono buf)

/-- The onset list the estimator computes for a buffer. -/
noncomputable def bpmOnsets (buf : ModelBuffer) : List ℝ := onsets (bpmEnergies buf)

/-- The 85th-percentile onset threshold for a buffer. -/
noncomputable def bpmThreshold (buf : ModelBuffer) : ℝ :=
  (sortAsc (bpmOnsets buf)).getD (threshIdx (bpmEnergies buf).length) 0

/-- The peak frames the estimator finds for a buffer. -/
noncomputable def bpmPeakFrames (buf : ModelBuffer) : List ℕ :=
  peakList (bpmOnsets buf) (bpmThreshold buf)

/-- The kept inter-peak intervals (in `[0.2 s, 2 s]`) for a buffer. -/
noncomputable def bpmIntervals (buf : ModelBuffer) : List ℝ :=
  keptIntervals (bpmPeakFrames buf) ((1024 : ℝ) / ((buf.sampleRate : ℚ) : ℝ))

/-- An all-zero (silent) single-channel buffer. -/
def zeroBuf (n : ℕ) (sr : ℚ) : ModelBuffer := ⟨[List.replicate n 0], sr⟩

/-- The percentage-knob invariant maintained by the live chain's setters. -/
def clampedInv (st : AudioGraphState) : Prop :=
  0 ≤ st.lowpass ∧ st.lowpass ≤ 100 ∧ 0 ≤ st.highpass ∧ st.highpass ≤ 100 ∧
    0 ≤ st.reverb ∧ st.reverb ≤ 100

/-! ## Helper lemmas -/

lemma clamp01_nonneg (a : ℚ) : 0 ≤ max 0 (min 100 a) := le_max_left 0 _

lemma clamp01_le (a : ℚ) : max 0 (min 100 a) ≤ 100 :=
  max_le (by norm_num) (min_le_left _ _)

lemma applyCall_clampedInv (st : AudioGraphState) (c : SetterCall) (h : clampedInv st) :
    clampedInv (applyCall st c) := by
  cases c with
  | speed v => exact h
  | detune c => exact h
  | bass db => exact h
  | treble db => exact h
  | lowpass a =>
    exact ⟨clamp01_nonneg a, clamp01_le a, h.2.2.1, h.2.2.2.1, h.2.2.2.2.1, h.2.2.2.2.2⟩
  | highpass a =>
    exact ⟨h.1, h.2.1, clamp01_nonneg a, clamp01_le a, h.2.2.2.2.1, h.2.2.2.2.2⟩
  | reverb a =>
    exact ⟨h.1, h.2.1, h.2.2.1, h.2.2.2.1, clamp01_nonneg a, clamp01_le a⟩
  | reverbType t => exact h
  | volume v => exact h

lemma applyCalls_clampedInv (calls : List SetterCall) :
    ∀ st, clampedInv st → clampedInv (applyCalls st calls) := by
  induction calls with
  | nil => exact fun st h => h
  | cons c rest ih => exact fun st h => ih (applyCall st c) (applyCall_clampedInv st c h)

/-! ## Claim C1: state-clamping invariant of the live chain -/

/-- C1 (amended): over every sequence of setter calls from the initial state,
the stored `lowpass`, `highpass` and `reverb` amounts always lie in [0,100];
`setSpeed` and `setVolume` store their argument unchanged (the source applies
no non-negativity clamp to speed or volume). -/
theorem setter_clamp_amended (calls : List SetterCall) :
    (0 ≤ (applyCalls initialState calls).lowpass ∧ (applyCalls initialState calls).lowpass ≤ 100) ∧
    (0 ≤ (applyCalls initialState calls).highpass ∧
      (applyCalls initialState calls).highpass ≤ 100) ∧
    (0 ≤ (applyCalls initialState calls).reverb ∧ (applyCalls initialState calls).reverb ≤ 100) ∧
    (∀ (st : AudioGraphState) (v : ℚ), (setSpeed st v).speed = v ∧ (setVolume st v).volume = v) := by
  have h0 : clampedInv initialState := by
    refine ⟨?_, ?_, ?_, ?_, ?_, ?_⟩ <;> norm_num [initialState]
  have h := applyCalls_clampedInv calls initialState h0
  exact ⟨⟨h.1, h.2.1⟩, ⟨h.2.2.1, h.2.2.2.1⟩, ⟨h.2.2.2.2.1, h.2.2.2.2.2⟩,
    fun st v => ⟨rfl, rfl⟩⟩

/-- C1 counterexample: `setSpeed(-1)` stores speed `-1`; the stored speed is
negative, so the setters do not clamp `speed` (or `volume`) to non-negative. -/
theorem setter_clamp_counterexample :
    (applyCalls initialState [SetterCall.speed (-1)]).speed < 0 := by
  norm_num [applyCalls, List.foldl, applyCall, setSpeed]

/-! ## Claim C4: distinguished out-of-memory failure of the offline render -/

/-- C4: if any chunk render fails and the caught message matches the runtime's
resource-exhaustion signature, the whole job fails with the distinguished
out-of-memory error message (which carries the user-facing hint), and no
partial chunk list is ever surfaced. -/
theorem render_oom_distinguished {Chunk : Type} (results : List (Except String Chunk))
    (msg : String) (hfail : collectChunks results = .error msg)
    (halloc : isAllocationFailureMsg msg = true) :
    renderOfflineResult results = .error oomMessage ∧
    (∀ chunks, renderOfflineResult results ≠ .ok chunks) ∧
    strIncludes oomMessage "Try a shorter clip or fewer effects" = true := by
  have h1 : renderOfflineResult results = .error oomMessage := by
    unfold renderOfflineResult
    rw [hfail]
    simp [halloc]
  exact ⟨h1, fun chunks hc => by rw [h1] at hc; exact Except.noConfusion hc, by decide⟩

/-- C4 witness: a concrete failing chunk with an allocation-failure message. -/
theorem render_oom_witness :
    (renderOfflineResult [Except.error "failed to allocate AudioBuffer"] :
      Except String (List Unit)) = .error oomMessage :=
  (render_oom_distinguished [Except.error "failed to allocate AudioBuffer"]
    "failed to allocate AudioBuffer" rfl (by decide)).1

/-! ## Claim C5: dry/wet gain policy per reverb algorithm -/

/-- C5: for every reverb amount in [0,100], the delay (comb) algorithm keeps
dry gain exactly 1 with wet gain `(amount/100) * 0.45`; the convolution
(original) algorithm uses wet `(amount/100) * 0.5` and dry `1 - wet`, so that
dry + wet = 1; and the live chain's `setReverbGains` computes exactly the same
pair as the offline `buildEffectGraph`. -/
theorem reverb_gain_policy (amount : ℚ) (h0 : 0 ≤ amount) (h1 : amount ≤ 100) :
    (∀ rt, setReverbGains rt amount = offlineReverbGains rt amount) ∧
    (setReverbGains .delay amount).1 = 1 ∧
    (setReverbGains .delay amount).2 = amount / 100 * 0.45 ∧
    (setReverbGains .original amount).2 = amount / 100 * 0.5 ∧
    (setReverbGains .original amount).1 = 1 - amount / 100 * 0.5 ∧
    (setReverbGains .original amount).1 + (setReverbGains .original amount).2 = 1 := by
  refine ⟨fun rt => by cases rt <;> rfl, rfl, rfl, rfl, rfl, ?_⟩
  show 1 - amount / 100 * 0.5 + amount / 100 * 0.5 = 1
  ring

/-- C5 witness: the gain policy at the concrete amount 50. -/
theorem reverb_gain_policy_witness :
    (setReverbGains .original 50).1 + (setReverbGains .original 50).2 = 1 ∧
    (setReverbGains .delay 50).1 = 1 :=
  ⟨(reverb_gain_policy 50 (by norm_num) (by norm_num)).2.2.2.2.2,
   (reverb_gain_policy 50 (by norm_num) (by norm_num)).2.1⟩

/-! ## Claim C7: 16-bit sample conversion -/

/-- C7: the WAV encoder's per-sample conversion equals the claimed formula
(clamp to [-1,1]; negative values floor-scaled by 32768 and clamped to
-32768, non-negative values floor-scaled by 32767 and clamped to 32767),
`floatToInt16` computes the identical value, and every converted sample lies
in [-32768, 32767]. -/
theorem wav_sample_conversion (x : ℚ) :
    floatToInt16 x = encodeWavSample x ∧
    encodeWavSample x =
      (if max (-1) (min 1 x) < 0 then max (-32768) ⌊max (-1) (min 1 x) * 32768⌋
       else min 32767 ⌊max (-1) (min 1 x) * 32767⌋) ∧
    -32768 ≤ encodeWavSample x ∧ encodeWavSample x ≤ 32767 := by
  have hrfl : encodeWavSample x =
      (if max (-1) (min 1 x) < 0 then max (-32768) ⌊max (-1) (min 1 x) * 32768⌋
       else min 32767 ⌊max (-1) (min 1 x) * 32767⌋) := rfl
  refine ⟨rfl, hrfl, ?_, ?_⟩
  · rw [hrfl]
    by_cases h : max (-1) (min 1 x) < 0
    · rw [if_pos h]
      exact le_max_left _ _
    · rw [if_neg h]
      push_neg at h
      have hf : (0 : ℤ) ≤ ⌊max (-1) (min 1 x) * 32767⌋ := by
        rw [Int.le_floor]
        push_cast
        exact mul_nonneg h (by norm_num)
      exact le_min (by norm_num) (le_trans (by norm_num) hf)
  · rw [hrfl]
    by_cases h : max (-1) (min 1 x) < 0
    · rw [if_pos h]
      have hm : max (-1) (min 1 x) * 32768 ≤ 0 := by nlinarith [le_of_lt h]
      have hf : ⌊max (-1) (min 1 x) * 32768⌋ ≤ 0 := by
        calc ⌊max (-1) (min 1 x) * 32768⌋ ≤ ⌊(0 : ℚ)⌋ := Int.floor_le_floor hm
          _ = 0 := Int.floor_zero
      exact max_le (by norm_num) (le_trans hf (by norm_num))
    · rw [if_neg h]
      exact min_le_left _ _

/-! ## Claim C6: ID3v1 text truncation -/

lemma truncateLoop_utf8_le (maxBytes : ℕ) :
    ∀ (fuel : ℕ) (s : List ℕ), s.length ≤ fuel →
      utf16Utf8Len (truncateLoop maxBytes fuel s) ≤ maxBytes := by
  intro fuel
  induction fuel with
  | zero =>
    intro s hs
    have : s = [] := List.length_eq_zero.mp (Nat.le_zero.mp hs)
    subst this
    simp [truncateLoop, utf16Utf8Len]
  | succ fuel ih =>
    intro s hs
    rw [truncateLoop]
    by_cases h : 0 < s.length ∧ maxBytes < utf16Utf8Len s
    · rw [if_pos h]
      exact ih s.dropLast (by simp only [List.length_dropLast]; omega)
    · rw [if_neg h]
      push_neg at h
      by_cases hlen : 0 < s.length
      · exact le_of_not_lt (fun hc => absurd (h hlen) (not_le.mpr hc))
      · have : s = [] := List.length_eq_zero.mp (by omega)
        subst this
        simp [utf16Utf8Len]

lemma truncateLoop_is_a_leading_part (maxBytes : ℕ) :
    ∀ (fuel : ℕ) (s : List ℕ), ∃ t, truncateLoop maxBytes fuel s ++ t = s := by
  intro fuel
  induction fuel with
  | zero => exact fun s => ⟨[], List.append_nil s⟩
  | succ fuel ih =>
    intro s
    rw [truncateLoop]
    by_cases h : 0 < s.length ∧ maxBytes < utf16Utf8Len s
    · rw [if_pos h]
      obtain ⟨t, ht⟩ := ih s.dropLast
      have hne : s ≠ [] := by
        intro hc
        rw [hc] at h
        simp at h
      refine ⟨t ++ [s.getLast hne], ?_⟩
      rw [← List.append_assoc, ht, List.dropLast_append_getLast hne]
    · exact ⟨[], by rw [if_neg h, List.append_nil]⟩

lemma noSurrogates_of_leading_part {a b : List ℕ} (h : noSurrogates (a ++ b) = true) :
    noSurrogates a = true := by
  unfold noSurrogates at h ⊢
  rw [List.all_append, Bool.and_eq_true] at h
  exact h.1

/-- C6 (amended): for every input string (as UTF-16 code units) and byte
limit, `truncateForId3v1` returns a leading part of the input whose UTF-8
byte length is at most the limit (30 for text fields, 4 for the year); a
40-character pure-ASCII title truncates to exactly 30 bytes; and an input
made only of single-unit (BMP) characters is never split mid-character —
but a surrogate-pair character can be (see the counterexample). -/
theorem id3v1_truncation_amended :
    (∀ (s : List ℕ) (maxBytes : ℕ),
      utf16Utf8Len (truncateForId3v1 s maxBytes) ≤ maxBytes ∧
      ∃ t, truncateForId3v1 s maxBytes ++ t = s) ∧
    utf16Utf8Len (truncateForId3v1 (List.replicate 40 97) 30) = 30 ∧
    (∀ (s : List ℕ) (maxBytes : ℕ), noSurrogates s = true →
      noSurrogates (truncateForId3v1 s maxBytes) = true) := by
  refine ⟨fun s maxBytes => ⟨truncateLoop_utf8_le maxBytes s.length s le_rfl,
    truncateLoop_is_a_leading_part maxBytes s.length s⟩, by decide, ?_⟩
  intro s maxBytes hs
  obtain ⟨t, ht⟩ := truncateLoop_is_a_leading_part maxBytes s.length s
  rw [← ht] at hs
  exact noSurrogates_of_leading_part hs

/-- C6 witness: the surrogate-free 40-character ASCII title stays
surrogate-free after truncation. -/
theorem id3v1_truncation_witness :
    noSurrogates (truncateForId3v1 (List.replicate 40 97) 30) = true :=
  id3v1_truncation_amended.2.2 (List.replicate 40 97) 30 (by decide)

/-- C6 counterexample: 27 ASCII characters followed by one astral character
(the well-formed surrogate pair D83D DE00) exceed 30 bytes, and truncation
stops right after dropping only the low surrogate: the result ends in an
unpaired high surrogate, i.e. the multi-byte character was split and the
result is no longer well-formed UTF-16 (it encodes with a trailing
replacement character). -/
theorem id3v1_truncation_counterexample :
    truncateForId3v1 (List.replicate 27 97 ++ [0xD83D, 0xDE00]) 30
      = List.replicate 27 97 ++ [0xD83D] ∧
    wellFormedUtf16 (List.replicate 27 97 ++ [0xD83D, 0xDE00]) = true ∧
    30 < utf16Utf8Len (List.replicate 27 97 ++ [0xD83D, 0xDE00]) ∧
    wellFormedUtf16 (truncateForId3v1 (List.replicate 27 97 ++ [0xD83D, 0xDE00]) 30)
      = false := by
  refine ⟨by decide, by decide, by decide, by decide⟩

/-! ## Claims C2 and C3: chunked offline render arithmetic -/

lemma ceil_le_of_le_int {α : Type} [LinearOrderedField α] [FloorRing α] {x : α} {n : ℤ}
    (h : x ≤ (n : α)) : ⌈x⌉ ≤ n := Int.ceil_le.mpr h

lemma int_le_ceil_of_le {α : Type} [LinearOrderedField α] [FloorRing α] {x : α} {n : ℤ}
    (h : (n : α) ≤ x) : n ≤ ⌈x⌉ := by
  have h2 : (n : α) ≤ (⌈x⌉ : α) := h.trans (Int.le_ceil x)
  exact_mod_cast h2

/-- Sum of the per-chunk ceilinged frame counts from start `60 k` on, given
enough fuel: it is the ceiling of the remaining duration times the rate. -/
lemma chunkSum {α : Type} [LinearOrderedField α] [FloorRing α] (d : α) (sr : ℕ) :
    ∀ (fuel k : ℕ), d ≤ 60 * (k : α) + 60 * (fuel : α) →
      ((chunkStartsAux d fuel (60 * (k : α))).map (chunkFrames d (sr : α))).sum
        = max 0 (⌈d * (sr : α)⌉ - 60 * (k : ℤ) * (sr : ℤ)) := by
  intro fuel
  induction fuel with
  | zero =>
    intro k hk
    simp only [Nat.cast_zero, mul_zero, add_zero] at hk
    have h1 : d * (sr : α) ≤ ((60 * (k : ℤ) * (sr : ℤ) : ℤ) : α) := by
      push_cast
      exact mul_le_mul_of_nonneg_right hk (by positivity)
    have h2 : ⌈d * (sr : α)⌉ ≤ 60 * (k : ℤ) * (sr : ℤ) := ceil_le_of_le_int h1
    simp only [chunkStartsAux, List.map_nil, List.sum_nil]
    omega
  | succ fuel ih =>
    intro k hk
    rw [chunkStartsAux]
    by_cases h : 60 * (k : α) < d
    · rw [if_pos h]
      have hlb : 60 * (k : ℤ) * (sr : ℤ) ≤ ⌈d * (sr : α)⌉ := by
        refine int_le_ceil_of_le ?_
        push_cast
        exact mul_le_mul_of_nonneg_right (le_of_lt h) (by positivity)
      have hstep : 60 * (k : α) + 60 = 60 * (((k + 1 : ℕ)) : α) := by push_cast; ring
      have hk' : d ≤ 60 * (((k + 1 : ℕ)) : α) + 60 * (fuel : α) := by
        push_cast at hk ⊢
        linarith
      have hrest := ih (k + 1) hk'
      simp only [List.map_cons, List.sum_cons]
      rw [hstep, hrest]
      unfold chunkFrames
      by_cases hlast : d ≤ 60 * (k : α) + 60
      · rw [min_eq_right hlast]
        have hcast : (d - 60 * (k : α)) * (sr : α)
            = d * (sr : α) - ((60 * (k : ℤ) * (sr : ℤ) : ℤ) : α) := by
          push_cast
          ring
        rw [hcast, Int.ceil_sub_int]
        have hub : ⌈d * (sr : α)⌉ ≤ 60 * (((k + 1 : ℕ)) : ℤ) * (sr : ℤ) := by
          refine ceil_le_of_le_int ?_
          push_cast
          exact mul_le_mul_of_nonneg_right (by linarith) (by positivity)
        rw [max_eq_left (sub_nonpos.mpr hub), max_eq_right (sub_nonneg.mpr hlb)]
        exact add_zero _
      · push_neg at hlast
        rw [min_eq_left (le_of_lt hlast)]
        have hcast : (60 * (k : α) + 60 - 60 * (k : α)) * (sr : α)
            = ((60 * (sr : ℤ) : ℤ) : α) := by
          push_cast
          ring
        rw [hcast, Int.ceil_intCast]
        have hlb2 : 60 * (((k + 1 : ℕ)) : ℤ) * (sr : ℤ) ≤ ⌈d * (sr : α)⌉ := by
          refine int_le_ceil_of_le ?_
          push_cast
          exact mul_le_mul_of_nonneg_right (by linarith) (by positivity)
        rw [max_eq_right (sub_nonneg.mpr hlb2), max_eq_right (sub_nonneg.mpr hlb)]
        push_cast
        ring
    · rw [if_neg h]
      push_neg at h
      have h1 : d * (sr : α) ≤ ((60 * (k : ℤ) * (sr : ℤ) : ℤ) : α) := by
        push_cast
        exact mul_le_mul_of_nonneg_right h (by positivity)
      have h2 : ⌈d * (sr : α)⌉ ≤ 60 * (k : ℤ) * (sr : ℤ) := ceil_le_of_le_int h1
      simp only [List.map_nil, List.sum_nil]
      omega

/-- The chunked render's total frame count is exactly the ceiling of
`duration * sampleRate`, for every nonnegative duration and integer rate. -/
lemma totalRenderedFrames_eq {α : Type} [LinearOrderedField α] [FloorRing α]
    (d : α) (sr : ℕ) (hd : 0 ≤ d) :
    totalRenderedFrames d (sr : α) = ⌈d * (sr : α)⌉ := by
  by_cases hpos : 0 < d
  · have hfuel : d ≤ 60 * ((0 : ℕ) : α) + 60 * ((⌈d / 60⌉.toNat + 1 : ℕ) : α) := by
      have hc : d / 60 ≤ (⌈d / 60⌉.toNat : α) := by
        have h1 : (0 : ℤ) ≤ ⌈d / 60⌉ := Int.ceil_nonneg (by positivity)
        have h2 : d / 60 ≤ (⌈d / 60⌉ : α) := Int.le_ceil _
        rwa [← Int.toNat_of_nonneg h1, Int.cast_natCast] at h2
      push_cast
      rw [div_le_iff (by norm_num : (0:α) < 60)] at hc
      linarith
    have hsum := chunkSum d sr (⌈d / 60⌉.toNat + 1) 0 hfuel
    unfold totalRenderedFrames chunkStarts
    have hz : 60 * ((0 : ℕ) : α) = 0 := by norm_num
    rw [hz] at hsum
    have hne : (chunkStartsAux d (⌈d / 60⌉.toNat + 1) 0).isEmpty = false := by
      rw [chunkStartsAux, if_pos hpos]
      rfl
    simp only [hne, Bool.false_eq_true, if_false, hsum]
    have hnn : (0 : ℤ) ≤ ⌈d * (sr : α)⌉ := Int.ceil_nonneg (by positivity)
    omega
  · have hzero : d = 0 := le_antisymm (not_lt.mp hpos) hd
    subst hzero
    unfold totalRenderedFrames chunkStarts
    have hempty : chunkStartsAux (0 : α) (⌈(0:α) / 60⌉.toNat + 1) 0 = [] := by
      rw [chunkStartsAux, if_neg (lt_irrefl 0)]
    simp only [hempty, List.isEmpty_nil, if_true]
    unfold chunkFrames
    have hmin : min ((0 : α) + 60) 0 = 0 := min_eq_right (by norm_num)
    simp [hmin]

/-- C2: chunking is lossless. For every source duration and positive
effective rate (covering every buffer and every `EffectState` with
`speed > 0`) and every integer sample rate, the sum over chunks of
`ceil(chunkDuration * sampleRate)` equals `ceil(totalDuration * sampleRate)`,
the frame count of a single non-chunked render; and concatenation preserves
per-channel sample counts, so the concatenated buffer has exactly that many
samples in every channel. -/
theorem chunked_render_lossless {α : Type} [LinearOrderedField α] [FloorRing α]
    (sourceDuration effectiveRate : α) (sr : ℕ)
    (hsrc : 0 ≤ sourceDuration) (hrate : 0 < effectiveRate) :
    totalRenderedFrames (sourceDuration / effectiveRate) (sr : α)
      = ⌈(sourceDuration / effectiveRate) * (sr : α)⌉ ∧
    (∀ (buffers : List (List (List ℚ))) (channels ch : ℕ), ch < channels →
      ((concatenateAudioBuffers buffers channels).getD ch []).length
        = (buffers.map (fun b => (b.getD ch []).length)).sum) := by
  constructor
  · exact totalRenderedFrames_eq _ sr (div_nonneg hsrc (le_of_lt hrate))
  · intro buffers channels ch hch
    unfold concatenateAudioBuffers
    rw [List.getD_eq_getElem?_getD, List.getElem?_map, List.getElem?_range hch]
    simp only [Option.map_some', Option.getD_some]
    rw [List.length_flatten, List.map_map]
    rfl

/-- C2 witness: a 130-second duration at 10 Hz splits into chunks of
600 + 600 + 100 frames, equal to the single-render count `ceil(130 * 10)`;
and concatenating two concrete stereo chunks puts 5 samples in channel 0. -/
theorem chunked_render_lossless_witness :
    totalRenderedFrames ((130 : ℚ) / 1) ((10 : ℕ) : ℚ)
      = ⌈((130 : ℚ) / 1) * ((10 : ℕ) : ℚ)⌉ ∧
    ((concatenateAudioBuffers [[[1, 2, 3], [4, 5, 6]], [[7, 8], [9, 10]]] 2).getD 0 []).length
      = ([[[1, 2, 3], [4, 5, 6]], [[7, 8], [9, 10]]].map
          (fun b => (b.getD 0 []).length)).sum := by
  have h := chunked_render_lossless (α := ℚ) 130 1 10 (by norm_num) (by norm_num)
  exact ⟨h.1, h.2 [[[1, 2, 3], [4, 5, 6]], [[7, 8], [9, 10]]] 2 0 (by norm_num)⟩

/-- C3: the offline render's total frame count corresponds to the duration
`sourceDuration / (speed * 2^(detune/1200))` to within one sample of
rounding; in particular the Nightcore preset (speed 1.25, detune 0) on a
10-second 44100 Hz buffer renders exactly 352800 frames, an 8.0-second
output. -/
theorem offline_render_duration (speed detune sourceDuration : ℝ) (sr : ℕ) (d : ℝ)
    (hspeed : 0 < speed) (hsrc : 0 ≤ sourceDuration)
    (hd : d = sourceDuration / (speed * (2 : ℝ) ^ (detune / 1200))) :
    (d * (sr : ℝ) ≤ ((totalRenderedFrames d (sr : ℝ) : ℤ) : ℝ) ∧
     ((totalRenderedFrames d (sr : ℝ) : ℤ) : ℝ) < d * (sr : ℝ) + 1) ∧
    totalRenderedFrames ((10 : ℝ) / (1.25 * (2 : ℝ) ^ ((0 : ℝ) / 1200))) ((44100 : ℕ) : ℝ)
      = 352800 := by
  have hpow : (0 : ℝ) < (2 : ℝ) ^ (detune / 1200) :=
    Real.rpow_pos_of_pos (by norm_num) _
  have hdnn : 0 ≤ d := by
    rw [hd]
    exact div_nonneg hsrc (le_of_lt (mul_pos hspeed hpow))
  have heq := totalRenderedFrames_eq d sr hdnn
  refine ⟨⟨?_, ?_⟩, ?_⟩
  · rw [heq]
    exact Int.le_ceil _
  · rw [heq]
    exact Int.ceil_lt_add_one _
  · have h8 : (10 : ℝ) / (1.25 * (2 : ℝ) ^ ((0 : ℝ) / 1200)) = 8 := by
      rw [show ((0 : ℝ) / 1200) = (0 : ℝ) by norm_num, Real.rpow_zero]
      norm_num
    rw [h8, totalRenderedFrames_eq (8 : ℝ) 44100 (by norm_num)]
    have : (8 : ℝ) * ((44100 : ℕ) : ℝ) = ((352800 : ℤ) : ℝ) := by norm_num
    rw [this, Int.ceil_intCast]

/-- C3 witness: the Nightcore instance itself (speed 1.25, detune 0,
10-second source at 44100 Hz, duration 8 s). -/
theorem offline_render_duration_witness :
    (8 : ℝ) * ((44100 : ℕ) : ℝ) ≤ ((totalRenderedFrames (8 : ℝ) ((44100 : ℕ) : ℝ) : ℤ) : ℝ) ∧
    ((totalRenderedFrames (8 : ℝ) ((44100 : ℕ) : ℝ) : ℤ) : ℝ)
      < (8 : ℝ) * ((44100 : ℕ) : ℝ) + 1 :=
  (offline_render_duration 1.25 0 10 44100 8 (by norm_num) (by norm_num)
    (by rw [show ((0 : ℝ) / 1200) = (0 : ℝ) by norm_num, Real.rpow_zero]; norm_num)).1

/-! ## Claims C8, C9, C10: the BPM estimator -/

lemma getD_replicate_self {γ : Type} (n i : ℕ) (a : γ) :
    (List.replicate n a).getD i a = a := by
  rcases lt_or_le i n with h | h
  · rw [List.getD_eq_getElem?_getD, List.getElem?_replicate, if_pos h]
    rfl
  · rw [List.getD_eq_getElem?_getD, List.getElem?_replicate, if_neg (not_lt.mpr h)]
    rfl

lemma getMonoSamples_zeroBuf (n : ℕ) (sr : ℚ) (h : n ≤ MAX_SAMPLES) :
    getMonoSamples (zeroBuf n sr) MAX_SAMPLES = List.replicate n 0 := by
  unfold getMonoSamples zeroBuf ModelBuffer.length
  simp only [List.headD_cons, List.length_replicate, List.length_cons, List.length_nil,
    List.getD_eq_getElem?_getD, min_eq_left h]
  by_cases hn : n = 0
  · subst hn
    simp
  · rw [if_neg hn]
    simp [List.take_replicate]

lemma frameMeanSq_zero (n f : ℕ) : frameMeanSq (List.replicate n 0) f = 0 := by
  unfold frameMeanSq
  have hz : ∀ i, (List.replicate n (0 : ℚ)).getD (f * 1024 + i) 0
      * (List.replicate n (0 : ℚ)).getD (f * 1024 + i) 0 = 0 := by
    intro i
    rw [getD_replicate_self]
    ring
  rw [List.map_congr_left (fun i _ => hz i), List.map_const', List.sum_replicate, smul_zero]
  norm_num

lemma frameEnergies_zero (n : ℕ) :
    frameEnergies (List.replicate n (0 : ℚ)) = List.replicate (numFramesOf n) (0 : ℝ) := by
  unfold frameEnergies
  rw [List.length_replicate]
  have hz : ∀ f, Real.sqrt ((frameMeanSq (List.replicate n 0) f : ℚ) : ℝ) = 0 := by
    intro f
    rw [frameMeanSq_zero]
    simp [Real.sqrt_zero]
  rw [List.map_congr_left (fun f _ => hz f)]
  simp [List.map_const', List.length_range]

lemma threshIdx_eight : threshIdx 8 = 5 := by
  norm_num [threshIdx]
  rfl

lemma threshIdx_seven : threshIdx 7 = 5 := by
  norm_num [threshIdx]
  rfl

lemma onsets_zeros (n : ℕ) : onsets (List.replicate n (0 : ℝ)) = List.replicate n 0 := by
  cases n with
  | zero => rfl
  | succ m =>
    rw [List.replicate_succ, onsets]
    have haux : ∀ k, onsetsAux (0 : ℝ) (List.replicate k 0) = List.replicate k 0 := by
      intro k
      induction k with
      | zero => rfl
      | succ j ih =>
        rw [List.replicate_succ, onsetsAux, ih]
        norm_num
    rw [haux m]

lemma sortAsc_zeros (n : ℕ) : sortAsc (List.replicate n (0 : ℝ)) = List.replicate n 0 := by
  induction n with
  | zero => rfl
  | succ m ih =>
    rw [List.replicate_succ, sortAsc, ih]
    cases m with
    | zero => rfl
    | succ j =>
      rw [List.replicate_succ, insertAsc, if_pos le_rfl, ← List.replicate_succ,
        ← List.replicate_succ]

lemma peakList_zeros_eight : peakList (List.replicate 8 (0 : ℝ)) 0 = [2, 3, 4, 5] := by
  norm_num [peakList, List.replicate, List.range_succ]

lemma peakList_zeros_seven : peakList (List.replicate 7 (0 : ℝ)) 0 = [2, 3, 4] := by
  norm_num [peakList, List.replicate, List.range_succ]

lemma keptIntervals_fourPeaks_4096 :
    keptIntervals [2, 3, 4, 5] ((1024 : ℝ) / ((4096 : ℚ) : ℝ)) = [1/4, 1/4, 1/4] := by
  norm_num [keptIntervals, consecDeltas]

lemma keptIntervals_fourPeaks_quarter :
    keptIntervals [2, 3, 4, 5] ((1 / 4 : ℝ)) = [1/4, 1/4, 1/4] := by
  norm_num [keptIntervals, consecDeltas]

lemma keptIntervals_fourPeaks_44100 :
    keptIntervals [2, 3, 4, 5] ((1024 : ℝ) / ((44100 : ℚ) : ℝ)) = [] := by
  norm_num [keptIntervals, consecDeltas]

lemma keptIntervals_fourPeaks_smallStep :
    keptIntervals [2, 3, 4, 5] ((256 / 11025 : ℝ)) = [] := by
  norm_num [keptIntervals, consecDeltas]

lemma histBins_quarterSeconds : histBins ([1/4, 1/4, 1/4] : List ℝ) = List.replicate 35 0 := by
  norm_num [histBins]

lemma bestBin_zeros : bestBin (List.replicate 35 0) = 0 := by
  norm_num [bestBin, List.range_succ, List.replicate]

lemma bpmFromBin_zero : bpmFromBin 0 = 194 := by
  norm_num [bpmFromBin, jsRound]

lemma detectBPMCore_zeros8_4096 :
    detectBPMCore (List.replicate 8 (0 : ℝ)) ((4096 : ℚ) : ℝ) = some 194 := by
  have hfr : (1024 : ℝ) / ((4096 : ℚ) : ℝ) = 1 / 4 := by norm_num
  simp only [detectBPMCore, List.length_replicate, threshIdx_eight, onsets_zeros,
    sortAsc_zeros, getD_replicate_self, peakList_zeros_eight, hfr,
    keptIntervals_fourPeaks_quarter]
  rw [if_neg (by norm_num), if_neg (by norm_num), histBins_quarterSeconds, bestBin_zeros,
    bpmFromBin_zero]
  norm_num [octaveCorrect, clampBpm]

lemma detectBPMCore_zeros7 (sr : ℝ) :
    detectBPMCore (List.replicate 7 (0 : ℝ)) sr = none := by
  simp only [detectBPMCore, List.length_replicate, threshIdx_seven, onsets_zeros,
    sortAsc_zeros, getD_replicate_self, peakList_zeros_seven]
  norm_num

lemma detectBPMCore_zeros8_44100 :
    detectBPMCore (List.replicate 8 (0 : ℝ)) ((44100 : ℚ) : ℝ) = none := by
  have hfr : (1024 : ℝ) / ((44100 : ℚ) : ℝ) = 256 / 11025 := by norm_num
  simp only [detectBPMCore, List.length_replicate, threshIdx_eight, onsets_zeros,
    sortAsc_zeros, getD_replicate_self, peakList_zeros_eight, hfr,
    keptIntervals_fourPeaks_smallStep]
  norm_num

/-- Silence of 9216 samples at 4096 Hz: 8 analysis frames, peaks at frames
2..5, three 0.25 s intervals, empty histogram, result 194. -/
lemma detectBPM_silence_9216_4096 : detectBPM (zeroBuf 9216 4096) = some 194 := by
  unfold detectBPM detectBPMInner
  rw [getMonoSamples_zeroBuf 9216 4096 (by norm_num [MAX_SAMPLES])]
  rw [if_neg (by norm_num), frameEnergies_zero]
  have h8 : numFramesOf 9216 = 8 := by norm_num [numFramesOf]
  rw [h8]
  show detectBPMCore (List.replicate 8 (0 : ℝ)) ((4096 : ℚ) : ℝ) = some 194
  exact detectBPMCore_zeros8_4096

lemma detectBPMCore_peaks_none (energy : List ℝ) (sr : ℝ)
    (h : (peakList (onsets energy)
      ((sortAsc (onsets energy)).getD (threshIdx energy.length) 0)).length < 4) :
    detectBPMCore energy sr = none := by
  simp only [detectBPMCore]
  rw [if_pos h]

lemma detectBPMCore_intervals_none (energy : List ℝ) (sr : ℝ)
    (h : (keptIntervals (peakList (onsets energy)
        ((sortAsc (onsets energy)).getD (threshIdx energy.length) 0))
        ((1024 : ℝ) / sr)).length < 2) :
    detectBPMCore energy sr = none := by
  simp only [detectBPMCore]
  by_cases hp : (peakList (onsets energy)
      ((sortAsc (onsets energy)).getD (threshIdx energy.length) 0)).length < 4
  · rw [if_pos hp]
  · rw [if_neg hp, if_pos h]

/-- C8: the estimator is total (the model returns an `Option`, and the
source's try/catch makes `detectBPM` the identity on `detectBPMInner`), and
it returns the unknown sentinel (`none`) whenever the capped mono window is
shorter than two analysis frames, whenever fewer than 4 onset peaks are
found, and whenever fewer than 2 inter-peak intervals lie in [0.2 s, 2 s]. -/
theorem bpm_unknown_conditions (buf : ModelBuffer) :
    ((getMonoSamples buf MAX_SAMPLES).length < 2 * 2048 → detectBPM buf = none) ∧
    ((bpmPeakFrames buf).length < 4 → detectBPM buf = none) ∧
    ((bpmIntervals buf).length < 2 → detectBPM buf = none) := by
  refine ⟨fun h => ?_, fun h => ?_, fun h => ?_⟩
  · unfold detectBPM detectBPMInner
    rw [if_pos h]
  · unfold detectBPM detectBPMInner
    by_cases hlen : (getMonoSamples buf MAX_SAMPLES).length < 2 * 2048
    · rw [if_pos hlen]
    · rw [if_neg hlen]
      exact detectBPMCore_peaks_none _ _ h
  · unfold detectBPM detectBPMInner
    by_cases hlen : (getMonoSamples buf MAX_SAMPLES).length < 2 * 2048
    · rw [if_pos hlen]
    · rw [if_neg hlen]
      exact detectBPMCore_intervals_none _ _ h

/-- C8 witness: three concrete silent buffers — an empty one (short window),
8192 samples at 4096 Hz (only 3 peaks), and 9216 samples at 44100 Hz (all
inter-peak intervals below 0.2 s) — all map to the unknown sentinel. -/
theorem bpm_unknown_conditions_witness :
    detectBPM (zeroBuf 0 44100) = none ∧
    detectBPM (zeroBuf 8192 4096) = none ∧
    detectBPM (zeroBuf 9216 44100) = none := by
  have hmono8192 : getMonoSamples (zeroBuf 8192 4096) MAX_SAMPLES = List.replicate 8192 0 :=
    getMonoSamples_zeroBuf 8192 4096 (by norm_num [MAX_SAMPLES])
  have hmono9216 : getMonoSamples (zeroBuf 9216 44100) MAX_SAMPLES = List.replicate 9216 0 :=
    getMonoSamples_zeroBuf 9216 44100 (by norm_num [MAX_SAMPLES])
  have h7 : numFramesOf 8192 = 7 := by norm_num [numFramesOf]
  have h8 : numFramesOf 9216 = 8 := by norm_num [numFramesOf]
  have hpk8192 : bpmPeakFrames (zeroBuf 8192 4096) = [2, 3, 4] := by
    simp only [bpmPeakFrames, bpmOnsets, bpmThreshold, bpmEnergies, bpmMono]
    rw [hmono8192, frameEnergies_zero, h7, onsets_zeros, sortAsc_zeros,
      List.length_replicate, threshIdx_seven, getD_replicate_self, peakList_zeros_seven]
  have hiv9216 : bpmIntervals (zeroBuf 9216 44100) = [] := by
    simp only [bpmIntervals, bpmPeakFrames, bpmOnsets, bpmThreshold, bpmEnergies, bpmMono]
    rw [hmono9216, frameEnergies_zero, h8, onsets_zeros, sortAsc_zeros,
      List.length_replicate, threshIdx_eight, getD_replicate_self, peakList_zeros_eight]
    show keptIntervals [2, 3, 4, 5] ((1024 : ℝ) / ((44100 : ℚ) : ℝ)) = []
    exact keptIntervals_fourPeaks_44100
  refine ⟨(bpm_unknown_conditions (zeroBuf 0 44100)).1 ?_,
    (bpm_unknown_conditions (zeroBuf 8192 4096)).2.1 ?_,
    (bpm_unknown_conditions (zeroBuf 9216 44100)).2.2 ?_⟩
  · rw [getMonoSamples_zeroBuf 0 44100 (by norm_num [MAX_SAMPLES])]
    norm_num
  · rw [hpk8192]
    norm_num
  · rw [hiv9216]
    norm_num

lemma octaveCorrect_eq_spec (bpm : ℤ) : octaveCorrect bpm = specOctaveCorrect bpm := by
  unfold octaveCorrect specOctaveCorrect
  by_cases h1 : 80 ≤ bpm ∧ bpm ≤ 200
  · rw [if_pos h1, if_neg (by omega), if_neg (by omega)]
  · rw [if_neg h1]

/-- C9: whenever `detectBPM` returns a number, that number is the modal
histogram bin's center period converted by `round(60000/periodMs)`, then
doubled on `[40,80)`, halved (rounded) on `(200,400]`, unchanged otherwise,
and clamped to `[60,200]`; in particular every non-`none` result is an
integer in `[60,200]`. -/
theorem bpm_result_formula (buf : ModelBuffer) (b : ℤ) (h : detectBPM buf = some b) :
    b = max 60 (min 200 (specOctaveCorrect (bpmFromBin (bestBin (histBins (bpmIntervals buf)))))) ∧
    60 ≤ b ∧ b ≤ 200 := by
  unfold detectBPM detectBPMInner at h
  by_cases hlen : (getMonoSamples buf MAX_SAMPLES).length < 2 * 2048
  · rw [if_pos hlen] at h
    exact absurd h (by simp)
  · rw [if_neg hlen] at h
    simp only [detectBPMCore] at h
    by_cases hp : (peakList (onsets (frameEnergies (getMonoSamples buf MAX_SAMPLES)))
        ((sortAsc (onsets (frameEnergies (getMonoSamples buf MAX_SAMPLES)))).getD
          (threshIdx (frameEnergies (getMonoSamples buf MAX_SAMPLES)).length) 0)).length < 4
    · rw [if_pos hp] at h
      exact absurd h (by simp)
    · rw [if_neg hp] at h
      by_cases hi : (keptIntervals
          (peakList (onsets (frameEnergies (getMonoSamples buf MAX_SAMPLES)))
            ((sortAsc (onsets (frameEnergies (getMonoSamples buf MAX_SAMPLES)))).getD
              (threshIdx (frameEnergies (getMonoSamples buf MAX_SAMPLES)).length) 0))
          ((1024 : ℝ) / ((buf.sampleRate : ℚ) : ℝ))).length < 2
      · rw [if_pos hi] at h
        exact absurd h (by simp)
      · rw [if_neg hi] at h
        have hb : b = clampBpm (octaveCorrect (bpmFromBin (bestBin (histBins
            (bpmIntervals buf))))) := by
          have := Option.some.inj h
          exact this.symm
        rw [hb, octaveCorrect_eq_spec]
        unfold clampBpm
        refine ⟨rfl, le_max_left _ _, ?_⟩
        exact max_le (by norm_num) (min_le_left _ _)

/-- C9 witness: the silent 9216-sample 4096 Hz buffer returns 194, which the
theorem places in [60,200] and equates to the histogram formula. -/
theorem bpm_result_formula_witness :
    (60 : ℤ) ≤ 194 ∧ (194 : ℤ) ≤ 200 :=
  (bpm_result_formula (zeroBuf 9216 4096) 194 detectBPM_silence_9216_4096).2

/-- C10: an input exists (silence: 9216 zero samples at 4096 Hz) on which the
estimator finds 4 peaks and 3 inter-peak intervals of 0.25 s — each in
[0.2 s, 0.3 s), hence below the histogram's 300 ms minimum period — so the
histogram stays empty, the modal bin defaults to bin 0 (period 310 ms), and
`detectBPM` returns `round(60000/310) = 194` instead of the unknown
sentinel. -/
theorem bpm_empty_histogram_default :
    detectBPM (zeroBuf 9216 4096) = some 194 ∧
    (bpmPeakFrames (zeroBuf 9216 4096)).length = 4 ∧
    bpmIntervals (zeroBuf 9216 4096) = [1/4, 1/4, 1/4] ∧
    (∀ dt ∈ bpmIntervals (zeroBuf 9216 4096), (1/5 : ℝ) ≤ dt ∧ dt < 3/10) ∧
    histBins (bpmIntervals (zeroBuf 9216 4096)) = List.replicate 35 0 ∧
    bestBin (histBins (bpmIntervals (zeroBuf 9216 4096))) = 0 ∧
    bpmFromBin 0 = 194 := by
  have hmono : getMonoSamples (zeroBuf 9216 4096) MAX_SAMPLES = List.replicate 9216 0 :=
    getMonoSamples_zeroBuf 9216 4096 (by norm_num [MAX_SAMPLES])
  have h8 : numFramesOf 9216 = 8 := by norm_num [numFramesOf]
  have hpk : bpmPeakFrames (zeroBuf 9216 4096) = [2, 3, 4, 5] := by
    simp only [bpmPeakFrames, bpmOnsets, bpmThreshold, bpmEnergies, bpmMono]
    rw [hmono, frameEnergies_zero, h8, onsets_zeros, sortAsc_zeros,
      List.length_replicate, threshIdx_eight, getD_replicate_self, peakList_zeros_eight]
  have hiv : bpmIntervals (zeroBuf 9216 4096) = [1/4, 1/4, 1/4] := by
    unfold bpmIntervals
    rw [hpk]
    show keptIntervals [2, 3, 4, 5] ((1024 : ℝ) / ((4096 : ℚ) : ℝ)) = [1/4, 1/4, 1/4]
    exact keptIntervals_fourPeaks_4096
  refine ⟨detectBPM_silence_9216_4096, by rw [hpk]; rfl, hiv, ?_, ?_, ?_, bpmFromBin_zero⟩
  · rw [hiv]
    intro dt hdt
    simp only [List.mem_cons, List.not_mem_nil, or_false] at hdt
    rcases hdt with h | h | h <;> subst h <;> norm_num
  · rw [hiv]
    exact histBins_quarterSeconds
  · rw [hiv, histBins_quarterSeconds]
    exact bestBin_zeros

end LibrePitch
